import Mathlib

/-!
Verification of the request-argument extraction core of
`rust-lib/flowy-sys/src/request/request.rs`.

The file embeds the data model (Payload, EventRequest, SystemError, the
Ready/pending future shape) and each built-in extractor as executable Lean
functions, then proves the specified properties about them.

Modelling conventions:
* Bytes are `List Nat` (each entry a byte value).
* A Rust `String` is modelled as its list of unicode scalar values
  (`Str := List Nat`), since `String::from_utf8_lossy` is specified in
  terms of scalar values.
* Futures are modelled by the inductive `Fut`: `Fut.ready a` is an
  already-resolved future (Rust `Ready`), `Fut.pending f` suspends once and
  then behaves as `f`.
* Extractors return the payload they leave behind (the Rust code receives
  `&mut Payload`; none of the built-ins ever writes through it, which the
  embedding makes explicit by returning the payload), the list of log
  entries emitted, and the future.
* The process-aborting `unwrap` in the custom-codec extractor is modelled
  by the `CodecResult.panicked` constructor: the call never returns.
-/

/-- Bytes of a payload buffer, one `Nat` per byte. -/
abbrev Bytes := List Nat

/-- A Rust string, modelled as its list of unicode scalar values. -/
abbrev Str := List Nat

/-- Payload of a request: empty, or a raw byte buffer
(`Payload` in `request/payload.rs`, which is outside the extraction core;
the spec describes it as `None | Bytes(byte-sequence)`). -/
inductive Payload : Type
  | none : Payload
  | bytes (buf : Bytes) : Payload
deriving DecidableEq, Repr

/-- Event tag of a request. Modelled from the spec: event tags are opaque
values supplied by the dispatch layer (their enumeration is out of scope),
so we model them as strings; only their debug rendering is observable here. -/
abbrev Event := String

/-- EventRequest: an identifier plus an event tag, read-only during
extraction. -/
structure EventRequest : Type where
  id : String
  event : Event
deriving DecidableEq, Repr

/-- SystemError: the single system-wide error type. Modelled from the spec:
it wraps an internal error detail (free-form message); the extraction core
only ever builds the internal-message form via `InternalError::new(..)`. -/
inductive SystemError : Type
  | internal (msg : String) : SystemError
deriving DecidableEq, Repr

/-- One emitted log record: a severity level and a message. -/
structure LogEntry : Type where
  level : String
  msg : String
deriving DecidableEq, Repr

/-- A future: either already resolved (Rust `Ready`), or pending for one
poll and then behaving as the inner future. -/
inductive Fut (α : Type) : Type
  | ready (a : α) : Fut α
  | pending (f : Fut α) : Fut α
deriving DecidableEq

/-- Result of polling a future once. -/
inductive Poll (α : Type) : Type
  | ready (a : α) : Poll α
  | pending : Poll α
deriving DecidableEq

/-- Poll a future once. -/
def Fut.poll {α : Type} : Fut α → Poll α
  | .ready a => .ready a
  | .pending _ => .pending

/-- Drive a future to completion and return its output. -/
def Fut.resolve {α : Type} : Fut α → α
  | .ready a => a
  | .pending f => f.resolve

/-- Number of polls before the future resolves (0 for `Ready`). -/
def Fut.delay {α : Type} : Fut α → Nat
  | .ready _ => 0
  | .pending f => f.delay + 1

/-- Whether a continuation byte: `0x80 ≤ b ≤ 0xBF`. -/
def cont (b : Nat) : Prop := 0x80 ≤ b ∧ b ≤ 0xBF

instance (b : Nat) : Decidable (cont b) := by unfold cont; infer_instance

/-- Admissible second byte of a three-byte UTF-8 sequence with lead `b`
(per the table in Rust core str validation). -/
def valid3 (b c1 : Nat) : Prop :=
  (b = 0xE0 ∧ 0xA0 ≤ c1 ∧ c1 ≤ 0xBF) ∨
  (0xE1 ≤ b ∧ b ≤ 0xEC ∧ cont c1) ∨
  (b = 0xED ∧ 0x80 ≤ c1 ∧ c1 ≤ 0x9F) ∨
  (0xEE ≤ b ∧ b ≤ 0xEF ∧ cont c1)

instance (b c1 : Nat) : Decidable (valid3 b c1) := by unfold valid3; infer_instance

/-- Admissible second byte of a four-byte UTF-8 sequence with lead `b`. -/
def valid4 (b c1 : Nat) : Prop :=
  (b = 0xF0 ∧ 0x90 ≤ c1 ∧ c1 ≤ 0xBF) ∨
  (0xF1 ≤ b ∧ b ≤ 0xF3 ∧ cont c1) ∨
  (b = 0xF4 ∧ 0x80 ≤ c1 ∧ c1 ≤ 0x8F)

instance (b c1 : Nat) : Decidable (valid4 b c1) := by unfold valid4; infer_instance

/-- The unicode replacement character U+FFFD. -/
def replacementChar : Nat := 0xFFFD

/-- Lossy UTF-8 decoding, following `String::from_utf8_lossy`: valid
sequences decode to their scalar value; an invalid sequence is replaced by
U+FFFD following the maximal-subpart policy of Rust core UTF-8 validation
(an invalid lead byte consumes one byte; a valid prefix of a multi-byte
sequence followed by an out-of-range byte consumes exactly that prefix; a
truncated sequence at the end of input yields a single U+FFFD). -/
def utf8DecodeLossy : Bytes → Str
  | [] => []
  | b :: t =>
    if b < 0x80 then b :: utf8DecodeLossy t
    else if 0xC2 ≤ b ∧ b ≤ 0xDF then
      match t with
      | [] => [replacementChar]
      | c1 :: t1 =>
        if cont c1 then ((b - 0xC0) * 64 + (c1 - 0x80)) :: utf8DecodeLossy t1
        else replacementChar :: utf8DecodeLossy (c1 :: t1)
    else if 0xE0 ≤ b ∧ b ≤ 0xEF then
      match t with
      | [] => [replacementChar]
      | c1 :: t1 =>
        if valid3 b c1 then
          match t1 with
          | [] => [replacementChar]
          | c2 :: t2 =>
            if cont c2 then
              ((b - 0xE0) * 4096 + (c1 - 0x80) * 64 + (c2 - 0x80)) :: utf8DecodeLossy t2
            else replacementChar :: utf8DecodeLossy (c2 :: t2)
        else replacementChar :: utf8DecodeLossy (c1 :: t1)
    else if 0xF0 ≤ b ∧ b ≤ 0xF4 then
      match t with
      | [] => [replacementChar]
      | c1 :: t1 =>
        if valid4 b c1 then
          match t1 with
          | [] => [replacementChar]
          | c2 :: t2 =>
            if cont c2 then
              match t2 with
              | [] => [replacementChar]
              | c3 :: t3 =>
                if cont c3 then
                  ((b - 0xF0) * 262144 + (c1 - 0x80) * 4096 + (c2 - 0x80) * 64 + (c3 - 0x80))
                    :: utf8DecodeLossy t3
                else replacementChar :: utf8DecodeLossy (c3 :: t3)
            else replacementChar :: utf8DecodeLossy (c2 :: t2)
        else replacementChar :: utf8DecodeLossy (c1 :: t1)
    else replacementChar :: utf8DecodeLossy t

/-- A valid unicode scalar value: below 0x110000 and not a surrogate. -/
def Utf8Scalar (c : Nat) : Prop :=
  c < 0x110000 ∧ ¬(0xD800 ≤ c ∧ c ≤ 0xDFFF)

instance (c : Nat) : Decidable (Utf8Scalar c) := by unfold Utf8Scalar; infer_instance

/-- Standard UTF-8 encoding of one unicode scalar value. -/
def utf8EncodeChar (c : Nat) : Bytes :=
  if c < 0x80 then [c]
  else if c < 0x800 then [0xC0 + c / 64, 0x80 + c % 64]
  else if c < 0x10000 then [0xE0 + c / 4096, 0x80 + c / 64 % 64, 0x80 + c % 64]
  else [0xF0 + c / 262144, 0x80 + c / 4096 % 64, 0x80 + c / 64 % 64, 0x80 + c % 64]

/-- Standard UTF-8 encoding of a string of scalar values. -/
def utf8Encode : Str → Bytes
  | [] => []
  | c :: cs => utf8EncodeChar c ++ utf8Encode cs

/-- The function `unexpected_none_payload` (request.rs lines 64-67): logs a
warning rendering the request event, then builds the internal error
"Expected payload" converted into a SystemError. The embedding returns both
the emitted log entries and the error value. -/
def unexpected_none_payload (request : EventRequest) : List LogEntry × SystemError :=
  ([⟨"warn", request.event ++ " expected payload"⟩],
   SystemError.internal "Expected payload")

/-- The FromRequest impl for `()` (request.rs lines 44-49): ignores request
and payload, emits no log, and returns `ready(Ok(()))`. -/
def unit_from_request (_req : EventRequest) (payload : Payload) :
    Payload × List LogEntry × Fut (Except SystemError Unit) :=
  (payload, [], .ready (.ok ()))

/-- The FromRequest impl for String (request.rs lines 52-62): on
`Payload::None` it fails with `unexpected_none_payload` (logging first); on
`Payload::Bytes(buf)` it succeeds with `String::from_utf8_lossy(buf)`.
The match only reads through the mutable borrow, so the payload comes back
unchanged. -/
def string_from_request (req : EventRequest) (payload : Payload) :
    Payload × List LogEntry × Fut (Except SystemError Str) :=
  match payload with
  | .none =>
    let r := unexpected_none_payload req
    (payload, r.1, .ready (.error r.2))
  | .bytes buf => (payload, [], .ready (.ok (utf8DecodeLossy buf)))

/-- The Data wrapper (request.rs line 103): owns one decoded value. -/
structure Data (T : Type) : Type where
  value : T
deriving DecidableEq, Repr

/-- The FromRequest impl for `Data T` with the use_serde feature
(request.rs lines 119-140), generic over the serde deserialization of `T`,
which lives outside this crate: `from_str s` models `serde_json::from_str`
for `T` on text `s`, and its error string models the diagnostic that
`format!("\x7b:?\x7d", e)` renders. On `Payload::None` it fails via
`unexpected_none_payload`; on bytes it lossy-decodes then parses, wrapping
a parse success in `Data` and a parse error in
`InternalError::new(diagnostic)`. -/
def data_from_request_serde {T : Type} (from_str : Str → Except String T)
    (req : EventRequest) (payload : Payload) :
    Payload × List LogEntry × Fut (Except SystemError (Data T)) :=
  match payload with
  | .none =>
    let r := unexpected_none_payload req
    (payload, r.1, .ready (.error r.2))
  | .bytes buf =>
    match from_str (utf8DecodeLossy buf) with
    | .ok d => (payload, [], .ready (.ok ⟨d⟩))
    | .error e => (payload, [], .ready (.error (SystemError.internal e)))

/-- Outcome of calling the custom-codec `from_request`: either the call
returns (with the payload it leaves, its log, and the future), or the
process aborts inside the call (`unwrap` on a parse error) carrying the
error that caused the panic. -/
inductive CodecResult (T : Type) : Type
  | returned (payload : Payload) (log : List LogEntry) (fut : Fut (Except SystemError (Data T))) : CodecResult T
  | panicked (cause : SystemError) : CodecResult T

/-- The FromRequest impl for `Data T` without the use_serde feature
(request.rs lines 146-164), generic over `T::parse_from_bytes` of the
FromBytes trait. On `Payload::None` it fails via `unexpected_none_payload`;
on bytes it calls `parse_from_bytes(bytes).unwrap()`: a parse success is
wrapped in `Data` and returned ready, a parse error makes `unwrap` panic,
aborting the call. -/
def data_from_request_codec {T : Type} (parse_from_bytes : Bytes → Except SystemError T)
    (req : EventRequest) (payload : Payload) : CodecResult T :=
  match payload with
  | .none =>
    let r := unexpected_none_payload req
    .returned payload r.1 (.ready (.error r.2))
  | .bytes buf =>
    match parse_from_bytes buf with
    | .ok d => .returned payload [] (.ready (.ok ⟨d⟩))
    | .error e => .panicked e

/-- The future transformer of `FromRequestFuture` (request.rs lines 84-101):
its poll forwards pending from the inner future, and when the inner future
is ready with `res` it is ready with `Ok(res)`. -/
def wrap_future {E α : Type} : Fut (Except E α) → Fut (Except SystemError (Except E α))
  | .ready r => .ready (.ok r)
  | .pending f => .pending (wrap_future f)

/-- The FromRequest impl for `Result T (T.Error)` (request.rs lines 70-82):
it runs the inner extractor and wraps its future in `FromRequestFuture`. -/
def result_from_request {T : Type}
    (inner : EventRequest → Payload → Payload × List LogEntry × Fut (Except SystemError T))
    (req : EventRequest) (payload : Payload) :
    Payload × List LogEntry × Fut (Except SystemError (Except SystemError T)) :=
  let r := inner req payload
  (r.1, r.2.1, wrap_future r.2.2)

/-- Payload left behind by a custom-codec extraction, when the call
returns at all. -/
def CodecResult.payloadOut {T : Type} : CodecResult T → Option Payload
  | .returned p _ _ => some p
  | .panicked _ => Option.none

/-- Helper: split a string into its leading ASCII-digit values and the
rest. -/
def takeDigits : Str → List Nat × Str
  | [] => ([], [])
  | c :: t =>
    if 0x30 ≤ c ∧ c ≤ 0x39 then
      let r := takeDigits t
      ((c - 0x30) :: r.1, r.2)
    else ([], c :: t)

/-- Helper: numeric value of a list of digit values, most significant
first. -/
def digitsVal (ds : List Nat) : Nat := ds.foldl (fun a d => a * 10 + d) 0

/-- Modelled from the spec: the structured-text (JSON) deserialization that
serde_json::from_str performs for a record type with one integer field
named x, used to instantiate the generic typed-data extractor in concrete
witnesses. serde_json is an external crate, outside this repository; per
the spec a valid encoded document parses to the deep-equal value and
malformed content yields a diagnostic. This parser accepts exactly the
documents \x7b"x":<integer>\x7d (optional leading minus on the number)
and rejects everything else with a diagnostic message. -/
def parse_int_record (s : Str) : Except String Int :=
  match s with
  | 0x7B :: 0x22 :: 0x78 :: 0x22 :: 0x3A :: rest =>
    match rest with
    | 0x2D :: rest1 =>
      match takeDigits rest1 with
      | ([], _) => .error "invalid number in field x"
      | (ds, rest2) =>
        if rest2 = [0x7D] then .ok (-(digitsVal ds : Int))
        else .error "invalid content after number in field x"
    | _ =>
      match takeDigits rest with
      | ([], _) => .error "invalid type for field x, expected integer"
      | (ds, rest2) =>
        if rest2 = [0x7D] then .ok ((digitsVal ds : Nat) : Int)
        else .error "invalid content after number in field x"
  | _ => .error "expected an object with single field x"

example : utf8DecodeLossy [104, 101, 108, 108, 111] = [104, 101, 108, 108, 111] := by decide
example : utf8DecodeLossy [0xE2, 0x82, 0xAC] = [0x20AC] := by decide
example : utf8DecodeLossy [0xFF, 0x41] = [replacementChar, 0x41] := by decide
example : utf8DecodeLossy [0xE2, 0x82] = [replacementChar] := by decide
example : utf8DecodeLossy (utf8Encode [0x10348, 0x41, 0x7FF]) = [0x10348, 0x41, 0x7FF] := by decide

example : parse_int_record (utf8DecodeLossy [0x7B, 0x22, 0x78, 0x22, 0x3A, 0x31, 0x7D]) = .ok 1 := rfl
example : parse_int_record (utf8DecodeLossy [0x7B, 0x22, 0x78, 0x22, 0x3A, 0x2D, 0x34, 0x32, 0x7D]) = .ok (-42) := rfl
example : (parse_int_record (utf8DecodeLossy [0x7B, 0x22, 0x78, 0x22, 0x3A, 0x22, 0x6F, 0x6F, 0x70, 0x73, 0x22, 0x7D])).isOk = false := by decide

/-- One poll of the wrapped future behaves exactly as the source poll body:
pending is forwarded, and an inner result `res` becomes `Ready(Ok(res))`. -/
theorem wrap_future_poll {E α : Type} (f : Fut (Except E α)) :
    (wrap_future f).poll =
      match f.poll with
      | .ready r => .ready (.ok r)
      | .pending => .pending := by
  cases f <;> rfl

theorem wrap_future_resolve {E α : Type} (f : Fut (Except E α)) :
    (wrap_future f).resolve = .ok f.resolve := by
  induction f with
  | ready r => rfl
  | pending f ih => simpa [wrap_future, Fut.resolve] using ih

theorem wrap_future_delay {E α : Type} (f : Fut (Except E α)) :
    (wrap_future f).delay = f.delay := by
  induction f with
  | ready r => rfl
  | pending f ih => simpa [wrap_future, Fut.delay] using ih

theorem utf8DecodeLossy_ascii (b : Nat) (t : Bytes) (hb : b < 0x80) :
    utf8DecodeLossy (b :: t) = b :: utf8DecodeLossy t := by
  rw [utf8DecodeLossy.eq_def]
  dsimp only
  rw [if_pos hb]

theorem utf8DecodeLossy_two (b c1 : Nat) (t : Bytes)
    (hb : 0xC2 ≤ b ∧ b ≤ 0xDF) (hc : cont c1) :
    utf8DecodeLossy (b :: c1 :: t) =
      ((b - 0xC0) * 64 + (c1 - 0x80)) :: utf8DecodeLossy t := by
  rw [utf8DecodeLossy.eq_def]
  dsimp only
  rw [if_neg (by omega), if_pos hb, if_pos hc]

theorem utf8DecodeLossy_three (b c1 c2 : Nat) (t : Bytes)
    (hb : 0xE0 ≤ b ∧ b ≤ 0xEF) (h1 : valid3 b c1) (h2 : cont c2) :
    utf8DecodeLossy (b :: c1 :: c2 :: t) =
      ((b - 0xE0) * 4096 + (c1 - 0x80) * 64 + (c2 - 0x80)) :: utf8DecodeLossy t := by
  rw [utf8DecodeLossy.eq_def]
  dsimp only
  rw [if_neg (by omega), if_neg (by omega), if_pos hb, if_pos h1, if_pos h2]

theorem utf8DecodeLossy_four (b c1 c2 c3 : Nat) (t : Bytes)
    (hb : 0xF0 ≤ b ∧ b ≤ 0xF4) (h1 : valid4 b c1) (h2 : cont c2) (h3 : cont c3) :
    utf8DecodeLossy (b :: c1 :: c2 :: c3 :: t) =
      ((b - 0xF0) * 262144 + (c1 - 0x80) * 4096 + (c2 - 0x80) * 64 + (c3 - 0x80))
        :: utf8DecodeLossy t := by
  rw [utf8DecodeLossy.eq_def]
  dsimp only
  rw [if_neg (by omega), if_neg (by omega), if_neg (by omega), if_pos hb,
    if_pos h1, if_pos h2, if_pos h3]

/-- Decoding the UTF-8 encoding of one valid scalar recovers that scalar
and continues with the rest of the input. -/
theorem decode_encodeChar (c : Nat) (hc : Utf8Scalar c) (t : Bytes) :
    utf8DecodeLossy (utf8EncodeChar c ++ t) = c :: utf8DecodeLossy t := by
  obtain ⟨hlt, hsur⟩ := hc
  by_cases h1 : c < 0x80
  · rw [utf8EncodeChar, if_pos h1]
    simpa using utf8DecodeLossy_ascii c t h1
  · by_cases h2 : c < 0x800
    · rw [utf8EncodeChar, if_neg h1, if_pos h2]
      have h5 := utf8DecodeLossy_two (0xC0 + c / 64) (0x80 + c % 64) t
        (by omega) (by unfold cont; omega)
      have h6 : (0xC0 + c / 64 - 0xC0) * 64 + (0x80 + c % 64 - 0x80) = c := by omega
      rw [h6] at h5
      simpa using h5
    · by_cases h3 : c < 0x10000
      · rw [utf8EncodeChar, if_neg h1, if_neg h2, if_pos h3]
        have h5 := utf8DecodeLossy_three (0xE0 + c / 4096) (0x80 + c / 64 % 64)
          (0x80 + c % 64) t (by omega) (by unfold valid3 cont; omega)
          (by unfold cont; omega)
        have h6 : (0xE0 + c / 4096 - 0xE0) * 4096 + (0x80 + c / 64 % 64 - 0x80) * 64
            + (0x80 + c % 64 - 0x80) = c := by omega
        rw [h6] at h5
        simpa using h5
      · rw [utf8EncodeChar, if_neg h1, if_neg h2, if_neg h3]
        have h5 := utf8DecodeLossy_four (0xF0 + c / 262144) (0x80 + c / 4096 % 64)
          (0x80 + c / 64 % 64) (0x80 + c % 64) t (by omega)
          (by unfold valid4 cont; omega) (by unfold cont; omega)
          (by unfold cont; omega)
        have h6 : (0xF0 + c / 262144 - 0xF0) * 262144 + (0x80 + c / 4096 % 64 - 0x80) * 4096
            + (0x80 + c / 64 % 64 - 0x80) * 64 + (0x80 + c % 64 - 0x80) = c := by omega
        rw [h6] at h5
        simpa using h5

/-- Lossy UTF-8 decoding is a left inverse of UTF-8 encoding on strings of
valid scalar values. -/
theorem utf8_roundtrip (s : Str) (h : ∀ c ∈ s, Utf8Scalar c) :
    utf8DecodeLossy (utf8Encode s) = s := by
  induction s with
  | nil => rfl
  | cons c cs ih =>
    rw [utf8Encode, decode_encodeChar c (h c (by simp)),
      ih (fun x hx => h x (by simp [hx]))]

set_option maxRecDepth 8192 in
/-- Every scalar produced by lossy decoding is a valid unicode scalar
(lossy decoding always yields well-formed text). -/
theorem utf8DecodeLossy_scalars (buf : Bytes) :
    ∀ c ∈ utf8DecodeLossy buf, Utf8Scalar c := by
  induction buf using utf8DecodeLossy.induct
  all_goals intro c hc
  all_goals rw [utf8DecodeLossy.eq_def] at hc
  all_goals dsimp only at hc
  all_goals simp only [Utf8Scalar, valid3, valid4, cont, replacementChar] at *
  all_goals try split_ifs at hc
  all_goals simp only [List.mem_cons, List.mem_nil_iff, or_false] at hc
  all_goals try (rcases hc with rfl | hc)
  all_goals first | omega | solve_by_elim

/-- C1: in structured-text (serde) mode, for every request, typed-data
extraction from a payload whose bytes decode and parse to a document d
succeeds with a Data value equal to d; from a payload whose content is
malformed for T it fails with a SystemError carrying the parser
diagnostic; and from an empty payload it fails with the missing-payload
error (after emitting its warning). -/
theorem C1_data_serde_extraction {T : Type} (from_str : Str → Except String T)
    (req : EventRequest) :
    (∀ (buf : Bytes) (d : T), from_str (utf8DecodeLossy buf) = .ok d →
      data_from_request_serde from_str req (.bytes buf) =
        (.bytes buf, [], .ready (.ok ⟨d⟩))) ∧
    (∀ (buf : Bytes) (e : String), from_str (utf8DecodeLossy buf) = .error e →
      data_from_request_serde from_str req (.bytes buf) =
        (.bytes buf, [], .ready (.error (SystemError.internal e)))) ∧
    data_from_request_serde from_str req .none =
      (.none, (unexpected_none_payload req).1,
        .ready (.error (unexpected_none_payload req).2)) := by
  refine ⟨?_, ?_, rfl⟩
  · intro buf d h
    simp [data_from_request_serde, h]
  · intro buf e h
    simp [data_from_request_serde, h]

/-- Witness for C1: the concrete record parser on the valid document
bytes of \x7b"x":1\x7d and on a malformed document. -/
theorem C1_data_serde_extraction_witness :
    parse_int_record (utf8DecodeLossy [0x7B, 0x22, 0x78, 0x22, 0x3A, 0x31, 0x7D]) = .ok 1 ∧
    data_from_request_serde parse_int_record ⟨"id-1", "event-1"⟩
        (.bytes [0x7B, 0x22, 0x78, 0x22, 0x3A, 0x31, 0x7D]) =
      (.bytes [0x7B, 0x22, 0x78, 0x22, 0x3A, 0x31, 0x7D], [], .ready (.ok ⟨1⟩)) ∧
    parse_int_record (utf8DecodeLossy [0x7B, 0x41, 0x7D]) =
      .error "expected an object with single field x" ∧
    data_from_request_serde parse_int_record ⟨"id-1", "event-1"⟩ (.bytes [0x7B, 0x41, 0x7D]) =
      (.bytes [0x7B, 0x41, 0x7D], [],
        .ready (.error (SystemError.internal "expected an object with single field x"))) := by
  refine ⟨rfl, ?_, rfl, ?_⟩
  · exact (C1_data_serde_extraction parse_int_record ⟨"id-1", "event-1"⟩).1 _ 1 rfl
  · exact (C1_data_serde_extraction parse_int_record ⟨"id-1", "event-1"⟩).2.1 _ _ rfl

/-- C2: the result-adapting combinator never itself fails: for every inner
extractor, request and payload, its future resolves to an outer success
holding exactly the inner result, never to an outer error, and it passes
the inner payload and log through unchanged. -/
theorem C2_result_combinator_total {T : Type}
    (inner : EventRequest → Payload → Payload × List LogEntry × Fut (Except SystemError T))
    (req : EventRequest) (payload : Payload) :
    (result_from_request inner req payload).2.2.resolve =
      .ok (inner req payload).2.2.resolve ∧
    (∀ e : SystemError,
      (result_from_request inner req payload).2.2.resolve ≠ .error e) ∧
    (result_from_request inner req payload).1 = (inner req payload).1 ∧
    (result_from_request inner req payload).2.1 = (inner req payload).2.1 := by
  refine ⟨wrap_future_resolve _, ?_, rfl, rfl⟩
  intro e h
  rw [show (result_from_request inner req payload).2.2 = wrap_future (inner req payload).2.2
    from rfl, wrap_future_resolve] at h
  exact Except.noConfusion h

/-- C3: extracting text from an empty payload fails with the
missing-payload SystemError after logging a warning tagged with the
request event; the log is observability only, so the returned result does
not depend on the request that is logged. -/
theorem C3_string_none_fails (req : EventRequest) :
    string_from_request req .none =
      (.none, [⟨"warn", req.event ++ " expected payload"⟩],
        .ready (.error (SystemError.internal "Expected payload"))) ∧
    (∀ req2 : EventRequest,
      (string_from_request req .none).2.2 = (string_from_request req2 .none).2.2) :=
  ⟨rfl, fun _ => rfl⟩

/-- C4: extracting text from any non-empty payload succeeds with the lossy
UTF-8 decoding of its bytes, emits no log, never fails (even on invalid
UTF-8: invalid sequences are replaced, and the output is always valid
scalar text). -/
theorem C4_string_bytes_succeeds (req : EventRequest) (buf : Bytes) :
    string_from_request req (.bytes buf) =
      (.bytes buf, [], .ready (.ok (utf8DecodeLossy buf))) ∧
    (∀ e : SystemError,
      (string_from_request req (.bytes buf)).2.2.resolve ≠ .error e) ∧
    (∀ c ∈ utf8DecodeLossy buf, Utf8Scalar c) := by
  refine ⟨rfl, ?_, utf8DecodeLossy_scalars buf⟩
  intro e h
  exact Except.noConfusion h

/-- C5: in custom-codec mode, when the byte parser fails on the payload
bytes, extraction aborts the whole process (the unwrap panics) instead of
returning a failure result. -/
theorem C5_codec_parse_failure_aborts {T : Type}
    (parse_from_bytes : Bytes → Except SystemError T)
    (req : EventRequest) (buf : Bytes) (e : SystemError)
    (h : parse_from_bytes buf = .error e) :
    data_from_request_codec parse_from_bytes req (.bytes buf) = .panicked e := by
  simp [data_from_request_codec, h]

/-- Witness for C5 at a concrete always-failing parser and byte buffer. -/
theorem C5_codec_parse_failure_aborts_witness :
    (fun _ : Bytes => (.error (SystemError.internal "parse failed") : Except SystemError Int))
        [1, 2] = .error (SystemError.internal "parse failed") ∧
    data_from_request_codec
        (fun _ : Bytes => (.error (SystemError.internal "parse failed") : Except SystemError Int))
        ⟨"id-1", "event-1"⟩ (.bytes [1, 2]) =
      .panicked (SystemError.internal "parse failed") :=
  ⟨rfl, C5_codec_parse_failure_aborts _ _ _ _ rfl⟩

/-- C6: in custom-codec mode, extraction from an empty payload fails
identically to the structured-text mode: the call returns (never panics)
with the same warning log and the same missing-payload SystemError that the
serde-mode extractor produces. -/
theorem C6_codec_none_recoverable {T : Type}
    (parse_from_bytes : Bytes → Except SystemError T)
    (from_str : Str → Except String T) (req : EventRequest) :
    data_from_request_codec parse_from_bytes req .none =
      .returned .none (unexpected_none_payload req).1
        (.ready (.error (unexpected_none_payload req).2)) ∧
    data_from_request_serde from_str req .none =
      (.none, (unexpected_none_payload req).1,
        .ready (.error (unexpected_none_payload req).2)) ∧
    (∀ e : SystemError,
      data_from_request_codec parse_from_bytes req .none ≠ .panicked e) := by
  refine ⟨rfl, rfl, ?_⟩
  intro e h
  exact CodecResult.noConfusion h

/-- C7: extracting the unit value succeeds immediately for every request
and payload (empty or any byte content), emitting no log and leaving the
payload untouched. -/
theorem C7_unit_always_succeeds (req : EventRequest) (payload : Payload) :
    unit_from_request req payload = (payload, [], .ready (.ok ())) := rfl

/-- C8: no built-in extractor mutates the payload: each one hands back the
payload it was given (the custom-codec one whenever its call returns at
all, the combinator whenever its inner extractor does), and consequently
re-running an extraction on the payload left by a first run gives the
identical result. -/
theorem C8_extractors_frame (req : EventRequest) (payload : Payload) :
    (unit_from_request req payload).1 = payload ∧
    (string_from_request req payload).1 = payload ∧
    (∀ (T : Type) (from_str : Str → Except String T),
      (data_from_request_serde from_str req payload).1 = payload) ∧
    (∀ (T : Type) (parse_from_bytes : Bytes → Except SystemError T),
      (data_from_request_codec parse_from_bytes req payload).payloadOut = some payload ∨
      ∃ e, data_from_request_codec parse_from_bytes req payload = .panicked e) ∧
    (∀ (T : Type)
      (inner : EventRequest → Payload → Payload × List LogEntry × Fut (Except SystemError T)),
      (result_from_request inner req payload).1 = (inner req payload).1) ∧
    unit_from_request req (unit_from_request req payload).1 =
      unit_from_request req payload ∧
    string_from_request req (string_from_request req payload).1 =
      string_from_request req payload ∧
    (∀ (T : Type) (from_str : Str → Except String T),
      data_from_request_serde from_str req (data_from_request_serde from_str req payload).1 =
        data_from_request_serde from_str req payload) := by
  have hu : (unit_from_request req payload).1 = payload := rfl
  have hs : (string_from_request req payload).1 = payload := by
    cases payload <;> rfl
  have hd : ∀ (T : Type) (from_str : Str → Except String T),
      (data_from_request_serde from_str req payload).1 = payload := by
    intro T from_str
    cases payload with
    | none => rfl
    | bytes buf =>
      rw [data_from_request_serde]
      cases from_str (utf8DecodeLossy buf) <;> rfl
  refine ⟨hu, hs, hd, ?_, fun T inner => rfl, by rw [hu], by rw [hs], ?_⟩
  · intro T parse_from_bytes
    cases payload with
    | none => exact Or.inl rfl
    | bytes buf =>
      rw [data_from_request_codec]
      cases parse_from_bytes buf with
      | ok d => exact Or.inl rfl
      | error e => exact Or.inr ⟨e, rfl⟩
  · intro T from_str
    rw [hd T from_str]

/-- C9: every built-in extractor completes synchronously: the future it
returns is already resolved, so the first poll yields the final result and
the future never suspends (delay 0); in custom-codec mode this holds
whenever the call returns at all. -/
theorem C9_builtins_synchronous (req : EventRequest) (payload : Payload) :
    ((unit_from_request req payload).2.2.poll =
        .ready (unit_from_request req payload).2.2.resolve ∧
      (unit_from_request req payload).2.2.delay = 0) ∧
    ((string_from_request req payload).2.2.poll =
        .ready (string_from_request req payload).2.2.resolve ∧
      (string_from_request req payload).2.2.delay = 0) ∧
    (∀ (T : Type) (from_str : Str → Except String T),
      (data_from_request_serde from_str req payload).2.2.poll =
        .ready (data_from_request_serde from_str req payload).2.2.resolve ∧
      (data_from_request_serde from_str req payload).2.2.delay = 0) ∧
    (∀ (T : Type) (parse_from_bytes : Bytes → Except SystemError T),
      (∃ e, data_from_request_codec parse_from_bytes req payload = .panicked e) ∨
      ∃ p l r, data_from_request_codec parse_from_bytes req payload =
        .returned p l (.ready r)) := by
  refine ⟨⟨rfl, rfl⟩, ?_, ?_, ?_⟩
  · cases payload <;> exact ⟨rfl, rfl⟩
  · intro T from_str
    cases payload with
    | none => exact ⟨rfl, rfl⟩
    | bytes buf =>
      rw [data_from_request_serde]
      cases from_str (utf8DecodeLossy buf) <;> exact ⟨rfl, rfl⟩
  · intro T parse_from_bytes
    cases payload with
    | none => exact Or.inr ⟨_, _, _, rfl⟩
    | bytes buf =>
      rw [data_from_request_codec]
      cases parse_from_bytes buf with
      | ok d => exact Or.inr ⟨_, _, _, rfl⟩
      | error e => exact Or.inl ⟨e, rfl⟩

/-- C10: for every string of valid unicode scalars, extracting text from
the payload holding its UTF-8 encoding succeeds with exactly that string:
lossy decoding is the identity on valid UTF-8, so encode-then-extract
round-trips. -/
theorem C10_text_roundtrip (req : EventRequest) (s : Str)
    (h : ∀ c ∈ s, Utf8Scalar c) :
    string_from_request req (.bytes (utf8Encode s)) =
      (.bytes (utf8Encode s), [], .ready (.ok s)) := by
  rw [string_from_request, utf8_roundtrip s h]

/-- Witness for C10 on the scalars of "hello€" (whose encoding contains a
three-byte sequence). -/
theorem C10_text_roundtrip_witness :
    (∀ c ∈ ([104, 101, 108, 108, 111, 0x20AC] : Str), Utf8Scalar c) ∧
    string_from_request ⟨"id-1", "event-1"⟩
        (.bytes (utf8Encode [104, 101, 108, 108, 111, 0x20AC])) =
      (.bytes (utf8Encode [104, 101, 108, 108, 111, 0x20AC]), [],
        .ready (.ok [104, 101, 108, 108, 111, 0x20AC])) :=
  ⟨by decide, C10_text_roundtrip ⟨"id-1", "event-1"⟩ _ (by decide)⟩
